import Mathlib

/-!
Verification development for the dryoc secure-memory subsystem.

The definitions below are a shallow embedding of the Rust sources
`src/protected.rs` and `src/keypair.rs`: byte buffers become `List Nat`
(each element a byte value), fallible OS calls become functions taking an
explicit `osOk : Bool` oracle describing whether the underlying syscall
succeeds, and `panic!` / usize underflow is represented by an explicit
outcome constructor. Each definition's doc comment names the source
item it was translated from.
-/

/-! ## Key validity (src/keypair.rs) -/

/-- Size of an X25519 public key, `CRYPTO_BOX_PUBLICKEYBYTES`. The constant
lives in `crate::constants` (not under `src/`); it is the standard libsodium
value 32, and the spec speaks throughout of 32-byte keys. -/
def CRYPTO_BOX_PUBLICKEYBYTES : Nat := 32

/-- Translated from `KeyPair::is_valid_public_key` (src/keypair.rs lines
199-217): returns `false` for the all-zero point, `false` when the high bit
of the last byte (index `CRYPTO_BOX_PUBLICKEYBYTES - 1`) is set, and `true`
otherwise. Keys are length-32 byte lists. -/
def is_valid_public_key (key : List Nat) : Bool :=
  if key = List.replicate CRYPTO_BOX_PUBLICKEYBYTES 0 then false
  else if key.getD (CRYPTO_BOX_PUBLICKEYBYTES - 1) 0 &&& 0x80 ≠ 0 then false
  else true

/-- The small-order identity point `01 00…00` (1 followed by 31 zero bytes),
as in the test vector of src/keypair.rs lines 581-584. -/
def identity_point_bytes : List Nat := 1 :: List.replicate 31 0

/-- Modelled from the spec: `crypto_core_ed25519_is_valid_point_relaxed`
lives in `crate::classic::crypto_core`, which is not under `src/`. Per the
spec (§4.4), the relaxed Ed25519 predicate permits the high bit to be set
and rejects both the all-zero key and the small-order identity point; beyond
the points the spec fixes, it is modelled as accepting. -/
def crypto_core_ed25519_is_valid_point_relaxed (key : List Nat) : Bool :=
  if key = List.replicate 32 0 then false
  else if key = identity_point_bytes then false
  else true

/-- Translated from `KeyPair::is_valid_ed25519_key` (src/keypair.rs lines
229-231): delegates to the relaxed Ed25519 point-validity predicate. -/
def is_valid_ed25519_key (key : List Nat) : Bool :=
  crypto_core_ed25519_is_valid_point_relaxed key

/-- The known-valid key vector
`d7 5a 98 01 82 b1 0a b7 d5 4b fe d3 c9 64 07 3a 0e e1 72 f3 da a6 23 25 af 02 1a 68 f7 07 51 1a`
from the tests of src/keypair.rs (lines 521-524). -/
def known_valid_key : List Nat :=
  [0xd7, 0x5a, 0x98, 0x01, 0x82, 0xb1, 0x0a, 0xb7,
   0xd5, 0x4b, 0xfe, 0xd3, 0xc9, 0x64, 0x07, 0x3a,
   0x0e, 0xe1, 0x72, 0xf3, 0xda, 0xa6, 0x23, 0x25,
   0xaf, 0x02, 0x1a, 0x68, 0xf7, 0x07, 0x51, 0x1a]

/-- The key with byte 31 equal to `0x80` and all other bytes zero, as in
the test of src/keypair.rs lines 532-534. -/
def high_bit_key : List Nat := List.replicate 31 0 ++ [0x80]

/-! ## OS-call wrappers (src/protected.rs)

Each wrapper takes the byte length of the region and an oracle `osOk`
stating whether the underlying syscall succeeds. -/

/-- Result of a fallible OS call: `Ok(())` or `Err(std::io::Error)`; the
error payload is opaque, so it is not carried here. -/
inductive SysResult where
  | ok : SysResult
  | err : SysResult
deriving DecidableEq, Repr

/-- Translated from `dryoc_mlock` (src/protected.rs lines 69-84): calls
`mlock(ptr, data.len())` and reports the syscall's outcome. The full
length is submitted and the data is never modified. -/
def dryoc_mlock (len : Nat) (osOk : Bool) : SysResult :=
  if osOk then SysResult.ok else SysResult.err

/-- Translated from `dryoc_munlock` (src/protected.rs lines 86-101): calls
`munlock(ptr, data.len())`; same shape as `dryoc_mlock`. `len` is the full
buffer length submitted to the OS. -/
def dryoc_munlock (len : Nat) (osOk : Bool) : SysResult :=
  if osOk then SysResult.ok else SysResult.err

/-- Outcome of one of the `dryoc_mprotect_*` wrappers: `submitted` is the
size passed to `mprotect` (or `none` when the `data.len() - 1` computation
underflows on a zero-length buffer, which panics), and `result` is the
syscall's outcome (`none` when the call was never reached). -/
structure MprotectCall where
  submitted : Option Nat
  result : Option SysResult
deriving DecidableEq, Repr

/-- Translated from `dryoc_mprotect_readonly` (src/protected.rs lines
103-120): calls `mprotect(ptr, data.len() - 1, PROT_READ)`. For a
zero-length buffer the `usize` subtraction underflows (modelled as
`submitted = none`, a panic); otherwise `len - 1` bytes are submitted. -/
def dryoc_mprotect_readonly (len : Nat) (osOk : Bool) : MprotectCall :=
  if len = 0 then ⟨none, none⟩
  else ⟨some (len - 1), some (if osOk then SysResult.ok else SysResult.err)⟩

/-- Translated from `dryoc_mprotect_readwrite` (src/protected.rs lines
122-144): calls `mprotect(ptr, data.len() - 1, PROT_READ | PROT_WRITE)`;
same size computation as `dryoc_mprotect_readonly`. -/
def dryoc_mprotect_readwrite (len : Nat) (osOk : Bool) : MprotectCall :=
  if len = 0 then ⟨none, none⟩
  else ⟨some (len - 1), some (if osOk then SysResult.ok else SysResult.err)⟩

/-- Translated from `dryoc_mprotect_noaccess` (src/protected.rs lines
146-163): calls `mprotect(ptr, data.len() - 1, PROT_NONE)`; same size
computation as `dryoc_mprotect_readonly`. -/
def dryoc_mprotect_noaccess (len : Nat) (osOk : Bool) : MprotectCall :=
  if len = 0 then ⟨none, none⟩
  else ⟨some (len - 1), some (if osOk then SysResult.ok else SysResult.err)⟩

/-! ## Guarded allocator (src/protected.rs, `PageAlignedAllocator`) -/

/-- Geometry of one allocation made by `PageAlignedAllocator::allocate`
(src/protected.rs lines 344-389): the total size requested from
`posix_memalign`, the offset and length of the interior slice handed back
to the caller, and the offset of the trailing guard page. -/
structure AllocInfo where
  totalSize : Nat
  interiorOffset : Nat
  interiorLen : Nat
  aftGuardStart : Nat
deriving DecidableEq, Repr

/-- Translated from `PageAlignedAllocator::allocate` (src/protected.rs
lines 344-389), with `p` the page size and `n` = `layout.size()`:
`size = layout.size() + (pagesize - layout.size() % pagesize) + 2 * pagesize`;
the interior slice starts at `out.offset(pagesize)` and has length
`layout.size()`; the aft guard region starts at
`layout.size() + (pagesize - layout.size() % pagesize) + pagesize`. -/
def pageAlignedAllocate (p n : Nat) : AllocInfo :=
  { totalSize := n + (p - n % p) + 2 * p
    interiorOffset := p
    interiorLen := n
    aftGuardStart := n + (p - n % p) + p }

/-- Formalisation of the spec's words for claim C4: "requested size rounded
up to a page boundary" in the standard sense, the least multiple of the
page size `p` that is at least `n`. -/
def roundUpToPageBoundary (p n : Nat) : Nat := ((n + p - 1) / p) * p

/-- Formalisation of the spec's words for claim C4: "total reservation size
= requested size rounded up to a page boundary, plus two guard pages". -/
def specTotalReservation (p n : Nat) : Nat := roundUpToPageBoundary p n + 2 * p

/-! ## State transitions of `Protected` (src/protected.rs lines 165-241)

Each transition consumes the old handle `self`, builds a fresh handle
holding `A::default()`, performs the OS call on `self`'s bytes, and on
success swaps the bytes into the new handle. On an OS failure the `?`
operator returns only `Err(std::io::Error)`; `self` is then dropped still
holding the original bytes, and `Drop for Protected` (lines 746-764)
zeroizes them. The consumed handle's own destructor is modelled here with
succeeding OS calls; its failure behaviour is modelled separately by
`dropProtected`. -/

/-- The five transition operations of the `Protected` type-state wrapper. -/
inductive TransKind where
  | mlockT : TransKind
  | munlockT : TransKind
  | mprotectReadOnlyT : TransKind
  | mprotectReadWriteT : TransKind
  | mprotectNoAccessT : TransKind
deriving DecidableEq, Repr

/-- Observable outcome of a transition: `ok bytes` is `Ok(new_handle)`
with `bytes` the new handle's contents; `osError residue` is
`Err(std::io::Error)` together with what the consumed handle's storage
holds after its destructor ran; `panicked` is the usize underflow inside a
`dryoc_mprotect_*` wrapper on a zero-length buffer. -/
inductive TransOutcome where
  | ok : List Nat → TransOutcome
  | osError : List Nat → TransOutcome
  | panicked : TransOutcome
deriving DecidableEq, Repr

/-- Effect of `Zeroize::zeroize` on a byte buffer: every byte becomes 0. -/
def zeroizeBytes (a : List Nat) : List Nat := List.replicate a.length 0

/-- Runs one transition of `Protected` on the wrapped bytes `a` with OS
oracle `osOk`. Translated from the five `impl` blocks in src/protected.rs:
`Unlock::munlock` (lines 165-179), `Lock::mlock` (lines 181-193),
`ProtectReadOnly::mprotect_readonly` (lines 195-209),
`ProtectReadWrite::mprotect_readwrite` (lines 211-225),
`ProtectNoAccess::mprotect_noaccess` (lines 227-241). Success swaps the
original bytes unchanged into the new handle; failure drops the consumed
handle, whose destructor zeroizes the bytes. -/
def runTrans (k : TransKind) (a : List Nat) (osOk : Bool) : TransOutcome :=
  match k with
  | TransKind.mlockT =>
    match dryoc_mlock a.length osOk with
    | SysResult.ok => TransOutcome.ok a
    | SysResult.err => TransOutcome.osError (zeroizeBytes a)
  | TransKind.munlockT =>
    match dryoc_munlock a.length osOk with
    | SysResult.ok => TransOutcome.ok a
    | SysResult.err => TransOutcome.osError (zeroizeBytes a)
  | TransKind.mprotectReadOnlyT =>
    match (dryoc_mprotect_readonly a.length osOk).result with
    | none => TransOutcome.panicked
    | some SysResult.ok => TransOutcome.ok a
    | some SysResult.err => TransOutcome.osError (zeroizeBytes a)
  | TransKind.mprotectReadWriteT =>
    match (dryoc_mprotect_readwrite a.length osOk).result with
    | none => TransOutcome.panicked
    | some SysResult.ok => TransOutcome.ok a
    | some SysResult.err => TransOutcome.osError (zeroizeBytes a)
  | TransKind.mprotectNoAccessT =>
    match (dryoc_mprotect_noaccess a.length osOk).result with
    | none => TransOutcome.panicked
    | some SysResult.ok => TransOutcome.ok a
    | some SysResult.err => TransOutcome.osError (zeroizeBytes a)

/-- Composition `mlock` then `munlock`, as exercised by the property "lock
then unlock returns content byte-identical to the pre-lock state"
(test_lock_unlock in src/protected.rs lines 770-782). -/
def lockThenUnlock (a : List Nat) (ok1 ok2 : Bool) : TransOutcome :=
  match runTrans TransKind.mlockT a ok1 with
  | TransOutcome.ok b => runTrans TransKind.munlockT b ok2
  | r => r

/-! ## Release discipline: `Drop for Protected` (src/protected.rs 746-764) -/

/-- One observable step of the destructor: the `dryoc_mprotect_readwrite`
call (recording the size it submits), the `zeroize` wipe, the
`dryoc_munlock` call, and the deallocation performed afterwards by the
wrapped buffer's own drop through `PageAlignedAllocator::deallocate`. -/
inductive DropEvent where
  | mprotectRWStep : Nat → DropEvent
  | zeroizeStep : DropEvent
  | munlockStep : DropEvent
  | deallocateStep : DropEvent
deriving DecidableEq, Repr

/-- Final outcome of destruction: `completed` means control reached
deallocation normally; `panicked` models the `panic!` in the `map_err`
closures, which terminates instead of continuing the sequence. -/
inductive DropOutcome where
  | completed : DropOutcome
  | panicked : DropOutcome
deriving DecidableEq, Repr

/-- Translated from `Drop for Protected` (src/protected.rs lines 746-764)
followed by the wrapped buffer's deallocation. When the buffer is empty
the whole `if` body is skipped and only deallocation runs. Otherwise:
`dryoc_mprotect_readwrite` (failure → `panic!("mprotect")`), then
`zeroize`, then `dryoc_munlock` on the (now zeroized, same-length) bytes
(failure → `panic!("munlock")`), then deallocation. A panic is modelled as
immediate termination: no later step runs. -/
def dropProtected (a : List Nat) (mprotectOk munlockOk : Bool) :
    List DropEvent × DropOutcome :=
  if a.length = 0 then ([DropEvent.deallocateStep], DropOutcome.completed)
  else
    match (dryoc_mprotect_readwrite a.length mprotectOk).result with
    | none => ([], DropOutcome.panicked)
    | some SysResult.err =>
      ([DropEvent.mprotectRWStep (a.length - 1)], DropOutcome.panicked)
    | some SysResult.ok =>
      match dryoc_munlock (zeroizeBytes a).length munlockOk with
      | SysResult.err =>
        ([DropEvent.mprotectRWStep (a.length - 1), DropEvent.zeroizeStep,
          DropEvent.munlockStep], DropOutcome.panicked)
      | SysResult.ok =>
        ([DropEvent.mprotectRWStep (a.length - 1), DropEvent.zeroizeStep,
          DropEvent.munlockStep, DropEvent.deallocateStep], DropOutcome.completed)

/-! ## Full allocation path with guard-page failures -/

/-- OS oracles for one run of `PageAlignedAllocator::allocate`:
whether `posix_memalign` succeeds, and whether each of the four guard-page
calls (`mlock` and `mprotect_noaccess` on the fore and aft guard pages)
succeeds. -/
structure AllocFlags where
  memalignOk : Bool
  foreMlockOk : Bool
  foreProtectOk : Bool
  aftMlockOk : Bool
  aftProtectOk : Bool
deriving DecidableEq, Repr

/-- Translated from `PageAlignedAllocator::allocate` (src/protected.rs
lines 344-389), keeping the error-handling structure: a `posix_memalign`
failure returns `Err(AllocError)`; each of the four guard-page calls has
its error merely written to stderr via `map_err(|err| eprintln!(..)).ok()`
and is otherwise ignored, after which the interior slice is returned with
`Ok`. The second component counts the logged guard-page errors. -/
def allocateFull (p n : Nat) (f : AllocFlags) :
    Except Unit AllocInfo × Nat :=
  if f.memalignOk = false then (Except.error (), 0)
  else
    let log1 := match dryoc_mlock p f.foreMlockOk with
      | SysResult.ok => 0
      | SysResult.err => 1
    let log2 := match (dryoc_mprotect_noaccess p f.foreProtectOk).result with
      | some SysResult.ok => 0
      | _ => 1
    let log3 := match dryoc_mlock p f.aftMlockOk with
      | SysResult.ok => 0
      | SysResult.err => 1
    let log4 := match (dryoc_mprotect_noaccess p f.aftProtectOk).result with
      | some SysResult.ok => 0
      | _ => 1
    (Except.ok (pageAlignedAllocate p n), log1 + log2 + log3 + log4)

/-! ## Accessor exposure by protection state (src/protected.rs)

The Rust code gates access to the wrapped bytes by which trait `impl`
blocks exist for `Protected<A, PM, LM>`. The tables below record, for each
permission marker, whether the corresponding impl exists in the source; a
reviewer can check each arm against the cited impl block. -/

/-- The permission markers `ReadOnly`, `ReadWrite`, `NoAccess`
(src/protected.rs lines 24-31). -/
inductive PermMarker where
  | readOnly : PermMarker
  | readWrite : PermMarker
  | noAccess : PermMarker
deriving DecidableEq, Repr

/-- The lock markers `Locked`, `Unlocked` (src/protected.rs lines 33-37). -/
inductive LockMarker where
  | locked : LockMarker
  | unlocked : LockMarker
deriving DecidableEq, Repr

/-- Whether `impl Bytes for Protected<A, PM, LM>` exists (read access via
`as_slice`): lines 259-263 give it for `ReadOnly` (any lock mode) and lines
265-269 for `ReadWrite` (any lock mode); no impl exists for `NoAccess`. -/
def bytesImplExists : PermMarker → Bool
  | PermMarker.readOnly => true
  | PermMarker.readWrite => true
  | PermMarker.noAccess => false

/-- Whether `impl MutBytes for Protected<A, PM, LM>` exists (mutable access
via `as_mut_slice`): lines 525-529 give it only for `ReadWrite` (any lock
mode). -/
def mutBytesImplExists : PermMarker → Bool
  | PermMarker.readWrite => true
  | _ => false

/-- Whether `impl ByteArray for Protected<HeapByteArray, PM, LM>` exists
(read access via `as_array`): lines 684-712 give the four combinations of
`ReadOnly`/`ReadWrite` with `Unlocked`/`Locked`; none exists for
`NoAccess`. -/
def byteArrayImplExists : PermMarker → LockMarker → Bool
  | PermMarker.readOnly, _ => true
  | PermMarker.readWrite, _ => true
  | PermMarker.noAccess, _ => false

/-- Whether `impl MutByteArray for Protected<HeapByteArray, PM, LM>` exists
(mutable access via `as_mut_array`): lines 714-728 give `ReadWrite` with
`Locked` and with `Unlocked` only. -/
def mutByteArrayImplExists : PermMarker → LockMarker → Bool
  | PermMarker.readWrite, _ => true
  | _, _ => false

/-- Whether `impl AsRef<[u8]> for Protected<A, PM, LM>` exists: lines
243-249 implement it generically for every `PM: ProtectMode` and
`LM: LockMode`, `NoAccess` included, returning the wrapped bytes. -/
def asRefImplExists : PermMarker → Bool
  | _ => true

/-- Whether `impl AsMut<[u8]> for Protected<A, PM, LM>` exists: lines
251-257 implement it generically for every `PM: ProtectMode` and
`LM: LockMode`, `NoAccess` included, returning a mutable view of the
wrapped bytes. -/
def asMutImplExists : PermMarker → Bool
  | _ => true

/-! ## Claim theorems -/

/-- C6: for every 32-byte input key, `is_valid_public_key` returns `false`
if the key is the all-zero array, `false` if the high bit of byte 31 is
set, and `true` otherwise; moreover the known vector
`d7 5a 98 01 …` is valid and the key with byte 31 = `0x80` and all other
bytes zero is invalid. -/
theorem c6_is_valid_public_key_characterisation :
    (∀ key : List Nat, key.length = 32 →
      ((key = List.replicate 32 0 → is_valid_public_key key = false)
        ∧ (key.getD 31 0 &&& 0x80 ≠ 0 → is_valid_public_key key = false)
        ∧ (key ≠ List.replicate 32 0 → key.getD 31 0 &&& 0x80 = 0 →
            is_valid_public_key key = true)))
    ∧ is_valid_public_key known_valid_key = true
    ∧ is_valid_public_key high_bit_key = false := by
  refine ⟨?_, by decide, by decide⟩
  intro key _
  have e : is_valid_public_key key
      = if key = List.replicate 32 0 then false
        else if key.getD 31 0 &&& 0x80 ≠ 0 then false else true := rfl
  refine ⟨?_, ?_, ?_⟩
  · intro h
    rw [e, if_pos h]
  · intro h
    rw [e]
    by_cases hz : key = List.replicate 32 0
    · rw [if_pos hz]
    · rw [if_neg hz, if_pos h]
  · intro h1 h2
    rw [e, if_neg h1, if_neg (fun hc => hc h2)]

/-- Witness for C6: evaluates the characterisation at the all-zero key. -/
theorem c6_witness :
    (List.replicate 32 (0 : Nat)).length = 32
    ∧ is_valid_public_key (List.replicate 32 0) = false :=
  ⟨by decide,
    (c6_is_valid_public_key_characterisation.1 (List.replicate 32 0)
      (by decide)).1 rfl⟩

/-- C3 counterexample: the claim states that `is_valid_public_key` returns
`false` for the small-order identity point `01 00…00`; in the code it
returns `true` there (the identity point is neither all-zero nor has its
high bit set, so both rejection checks pass it). -/
theorem c3_counterexample_x25519_accepts_identity :
    is_valid_public_key identity_point_bytes = true := by decide

/-- C3 amended: both predicates return `false` for the all-zero 32-byte
key, and `is_valid_ed25519_key` returns `false` for the identity point
`01 00…00`, but `is_valid_public_key` returns `true` for the identity
point. -/
theorem c3_amended_validity_vectors :
    is_valid_public_key (List.replicate 32 0) = false
    ∧ is_valid_ed25519_key (List.replicate 32 0) = false
    ∧ is_valid_ed25519_key identity_point_bytes = false
    ∧ is_valid_public_key identity_point_bytes = true := by decide

/-- C2 counterexample: the claim states that no operation on
`Protected<A, NoAccess, LM>` yields the wrapped bytes or a mutable view;
in the code the blanket `AsRef<[u8]>` and `AsMut<[u8]>` impls
(src/protected.rs lines 243-257) exist for every permission marker,
`NoAccess` included, and return exactly such views. -/
theorem c2_counterexample_noaccess_views :
    asRefImplExists PermMarker.noAccess = true
    ∧ asMutImplExists PermMarker.noAccess = true := by decide

/-- C2 amended: the state-gated accessor traits (`Bytes`, `MutBytes`,
`ByteArray`, `MutByteArray`) are not implemented for `NoAccess` in any
lock state, but the blanket `AsRef<[u8]>`/`AsMut<[u8]>` impls do expose a
read view and a mutable view of the bytes even in the `NoAccess` state. -/
theorem c2_amended_accessor_exposure :
    bytesImplExists PermMarker.noAccess = false
    ∧ mutBytesImplExists PermMarker.noAccess = false
    ∧ (∀ lm, byteArrayImplExists PermMarker.noAccess lm = false)
    ∧ (∀ lm, mutByteArrayImplExists PermMarker.noAccess lm = false)
    ∧ asRefImplExists PermMarker.noAccess = true
    ∧ asMutImplExists PermMarker.noAccess = true := by
  refine ⟨rfl, rfl, ?_, ?_, rfl, rfl⟩
  · intro lm; cases lm <;> rfl
  · intro lm; cases lm <;> rfl

/-- C1 counterexample: the claim states that a failed transition returns
the original buffer's bytes alongside the error; in the code a failed
`munlock` on the bytes `[1, 2, 3]` returns only `Err(std::io::Error)`
while the consumed handle's destructor zeroizes the bytes, so the outcome
carries `[0, 0, 0]`, not the original `[1, 2, 3]`. -/
theorem c1_counterexample_failed_munlock_wipes_bytes :
    runTrans TransKind.munlockT [1, 2, 3] false = TransOutcome.osError [0, 0, 0]
    ∧ ([0, 0, 0] : List Nat) ≠ [1, 2, 3] := by decide

/-- C1 amended: on an OS failure, every transition on a non-empty buffer
returns only the error; the consumed handle is dropped and its bytes are
zeroized by the destructor, so the caller's secret material is wiped, not
returned. -/
theorem c1_amended_failure_returns_error_only (k : TransKind) (a : List Nat)
    (h : a ≠ []) :
    runTrans k a false = TransOutcome.osError (List.replicate a.length 0) := by
  have hl : a.length ≠ 0 := fun hz => h (List.length_eq_zero.mp hz)
  cases k <;>
    simp [runTrans, dryoc_mlock, dryoc_munlock, dryoc_mprotect_readonly,
      dryoc_mprotect_readwrite, dryoc_mprotect_noaccess, zeroizeBytes, hl]

/-- Witness for the amended C1 at the buffer `[1]` under a failed
`mlock`. -/
theorem c1_amended_witness :
    ([1] : List Nat) ≠ []
    ∧ runTrans TransKind.mlockT [1] false
        = TransOutcome.osError (List.replicate ([1] : List Nat).length 0) :=
  ⟨by decide,
    c1_amended_failure_returns_error_only TransKind.mlockT [1] (by decide)⟩

/-- C9: every transition that succeeds returns a handle whose wrapped
bytes are exactly the bytes of the consumed handle, unchanged. -/
theorem c9_success_preserves_bytes (k : TransKind) (a : List Nat)
    (osOk : Bool) (b : List Nat)
    (h : runTrans k a osOk = TransOutcome.ok b) : b = a := by
  cases k <;> cases osOk <;> by_cases hl : a.length = 0 <;>
    simp_all [runTrans, dryoc_mlock, dryoc_munlock, dryoc_mprotect_readonly,
      dryoc_mprotect_readwrite, dryoc_mprotect_noaccess]

/-- Witness for C9: a successful `mlock` of `[5]` yields exactly `[5]`. -/
theorem c9_witness :
    runTrans TransKind.mlockT [5] true = TransOutcome.ok [5]
    ∧ ([5] : List Nat) = [5] :=
  ⟨by decide,
    c9_success_preserves_bytes TransKind.mlockT [5] true [5] (by decide)⟩

/-- C8: for every buffer of length between 1 and 4096, `mlock` followed by
`munlock` (both succeeding) yields a buffer byte-identical to the
original. -/
theorem c8_lock_then_unlock_roundtrip (a : List Nat)
    (h1 : 1 ≤ a.length) (h2 : a.length ≤ 4096) :
    lockThenUnlock a true true = TransOutcome.ok a := by
  simp [lockThenUnlock, runTrans, dryoc_mlock, dryoc_munlock]

/-- Witness for C8 at the one-byte buffer `[42]`. -/
theorem c8_witness :
    1 ≤ ([42] : List Nat).length ∧ ([42] : List Nat).length ≤ 4096
    ∧ lockThenUnlock [42] true true = TransOutcome.ok [42] :=
  ⟨by decide, by decide,
    c8_lock_then_unlock_roundtrip [42] (by decide) (by decide)⟩

/-- C5: on destruction of a non-empty protected region the destructor
performs, in order, the permission widen (`mprotect_readwrite`), the
zero wipe, the unlock (`munlock`), and then deallocation; a failure of the
widen or of the unlock terminates (panics) without reaching deallocation
(the wipe itself is infallible in the code). -/
theorem c5_release_sequence (a : List Nat) (mOk uOk : Bool) (h : a ≠ []) :
    (mOk = true → uOk = true →
      dropProtected a mOk uOk =
        ([DropEvent.mprotectRWStep (a.length - 1), DropEvent.zeroizeStep,
          DropEvent.munlockStep, DropEvent.deallocateStep],
         DropOutcome.completed))
    ∧ (mOk = false →
        (dropProtected a mOk uOk).2 = DropOutcome.panicked
        ∧ DropEvent.deallocateStep ∉ (dropProtected a mOk uOk).1
        ∧ DropEvent.zeroizeStep ∉ (dropProtected a mOk uOk).1)
    ∧ (mOk = true → uOk = false →
        (dropProtected a mOk uOk).2 = DropOutcome.panicked
        ∧ DropEvent.deallocateStep ∉ (dropProtected a mOk uOk).1) := by
  have hl : a.length ≠ 0 := fun hz => h (List.length_eq_zero.mp hz)
  cases mOk <;> cases uOk <;>
    simp [dropProtected, dryoc_mprotect_readwrite, dryoc_munlock,
      zeroizeBytes, hl]

/-- Witness for C5: full release trace of the one-byte buffer `[9]` with
all OS calls succeeding. -/
theorem c5_witness :
    ([9] : List Nat) ≠ []
    ∧ dropProtected [9] true true =
        ([DropEvent.mprotectRWStep (([9] : List Nat).length - 1),
          DropEvent.zeroizeStep, DropEvent.munlockStep,
          DropEvent.deallocateStep], DropOutcome.completed) :=
  ⟨by decide, (c5_release_sequence [9] true true (by decide)).1 rfl rfl⟩

/-- C10: each `dryoc_mprotect_*` wrapper passes `data.len() - 1` to the OS
call, so the size computation underflows (panics) for a zero-length
buffer, and for a non-empty buffer the submitted range excludes the final
byte; the destructor avoids the underflow only by skipping all work on a
zero-length buffer. -/
theorem c10_mprotect_size_off_by_one :
    (∀ osOk : Bool,
        (dryoc_mprotect_readonly 0 osOk).submitted = none
        ∧ (dryoc_mprotect_readwrite 0 osOk).submitted = none
        ∧ (dryoc_mprotect_noaccess 0 osOk).submitted = none)
    ∧ (∀ (len : Nat) (osOk : Bool), 0 < len →
        (dryoc_mprotect_readonly len osOk).submitted = some (len - 1)
        ∧ (dryoc_mprotect_readwrite len osOk).submitted = some (len - 1)
        ∧ (dryoc_mprotect_noaccess len osOk).submitted = some (len - 1)
        ∧ len - 1 < len)
    ∧ (∀ mOk uOk : Bool,
        dropProtected [] mOk uOk
          = ([DropEvent.deallocateStep], DropOutcome.completed)) := by
  refine ⟨?_, ?_, ?_⟩
  · intro osOk
    simp [dryoc_mprotect_readonly, dryoc_mprotect_readwrite,
      dryoc_mprotect_noaccess]
  · intro len osOk hlen
    have hl : len ≠ 0 := Nat.pos_iff_ne_zero.mp hlen
    refine ⟨?_, ?_, ?_, ?_⟩ <;>
      simp [dryoc_mprotect_readonly, dryoc_mprotect_readwrite,
        dryoc_mprotect_noaccess, hl] <;> omega
  · intro mOk uOk
    simp [dropProtected]

/-- Witness for C10: the read-only wrapper on a 2-byte region submits only
1 byte to the OS. -/
theorem c10_witness :
    0 < 2
    ∧ (dryoc_mprotect_readonly 2 true).submitted = some 1 :=
  ⟨by decide, (c10_mprotect_size_off_by_one.2.1 2 true (by decide)).1⟩

/-- C7: guard-page `mlock`/`mprotect` failures during allocation are
logged and otherwise ignored (allocation still returns the interior
slice with `Ok`, and the log is empty exactly when all four guard calls
succeed), while an `mprotect` or `munlock` failure during a protected
region's release panics (is fatal). -/
theorem c7_alloc_ignores_release_fatal :
    (∀ (p n : Nat) (f : AllocFlags), 0 < p → f.memalignOk = true →
        (allocateFull p n f).1 = Except.ok (pageAlignedAllocate p n)
        ∧ ((allocateFull p n f).2 = 0 ↔
            f.foreMlockOk = true ∧ f.foreProtectOk = true
            ∧ f.aftMlockOk = true ∧ f.aftProtectOk = true))
    ∧ (∀ (a : List Nat) (mOk uOk : Bool), a ≠ [] →
        (mOk = false ∨ uOk = false) →
        (dropProtected a mOk uOk).2 = DropOutcome.panicked) := by
  constructor
  · intro p n f hp hm
    have hp0 : p ≠ 0 := Nat.pos_iff_ne_zero.mp hp
    obtain ⟨m, f1, f2, f3, f4⟩ := f
    cases f1 <;> cases f2 <;> cases f3 <;> cases f4 <;>
      simp_all [allocateFull, dryoc_mlock, dryoc_mprotect_noaccess]
  · intro a mOk uOk h hf
    have hl : a.length ≠ 0 := fun hz => h (List.length_eq_zero.mp hz)
    cases mOk <;> cases uOk <;>
      simp_all [dropProtected, dryoc_mprotect_readwrite, dryoc_munlock,
        zeroizeBytes]

/-- Witness for C7: a run with page size 4096, request 32, where both
guard-page `mlock` calls fail, still returns the allocation with `Ok`;
and a release whose `munlock` fails panics. -/
theorem c7_witness :
    (allocateFull 4096 32
        { memalignOk := true, foreMlockOk := false, foreProtectOk := true,
          aftMlockOk := false, aftProtectOk := true }).1
      = Except.ok (pageAlignedAllocate 4096 32)
    ∧ (dropProtected [3] true false).2 = DropOutcome.panicked :=
  ⟨(c7_alloc_ignores_release_fatal.1 4096 32
      { memalignOk := true, foreMlockOk := false, foreProtectOk := true,
        aftMlockOk := false, aftProtectOk := true } (by decide) rfl).1,
   c7_alloc_ignores_release_fatal.2 [3] true false (by decide)
     (Or.inr rfl)⟩

/-- The allocator's size padding `n + (p - n % p)` equals the standard
round-up to a page boundary when `n` is not already page-aligned, and
overshoots by exactly one page when it is. -/
theorem roundUpToPageBoundary_eq (p n : Nat) (hp : 0 < p) :
    roundUpToPageBoundary p n
      = if n % p = 0 then n else n + (p - n % p) := by
  unfold roundUpToPageBoundary
  obtain ⟨q, r, hrlt, rfl⟩ : ∃ q r, r < p ∧ n = p * q + r :=
    ⟨n / p, n % p, Nat.mod_lt n hp, (Nat.div_add_mod n p).symm⟩
  have hmod : (p * q + r) % p = r := by
    rw [Nat.mul_add_mod]
    exact Nat.mod_eq_of_lt hrlt
  rw [hmod]
  by_cases h0 : r = 0
  · subst h0
    rw [if_pos rfl]
    have hdiv : (p * q + 0 + p - 1) / p = q := by
      have h1 : p * q + 0 + p - 1 = p * q + (p - 1) := by omega
      rw [h1, Nat.mul_add_div hp,
        Nat.div_eq_of_lt (show p - 1 < p by omega), Nat.add_zero]
    rw [hdiv, Nat.mul_comm q p, Nat.add_zero]
  · rw [if_neg h0]
    have hdiv : (p * q + r + p - 1) / p = q + 1 := by
      have h1 : p * q + r + p - 1 = p * (q + 1) + (r - 1) := by
        rw [Nat.mul_add, Nat.mul_one]
        omega
      rw [h1, Nat.mul_add_div hp,
        Nat.div_eq_of_lt (show r - 1 < p by omega), Nat.add_zero]
    rw [hdiv, Nat.add_mul, Nat.one_mul, Nat.mul_comm q p]
    omega

/-- C4 counterexample: the claim states the total reservation size always
equals the requested size rounded up to a page boundary plus two guard
pages; with page size 4096 and a request of exactly 4096 bytes the code
reserves 16384 bytes (an extra full page), while the claimed formula gives
12288. -/
theorem c4_counterexample_aligned_request :
    (pageAlignedAllocate 4096 4096).totalSize = 16384
    ∧ specTotalReservation 4096 4096 = 12288
    ∧ (pageAlignedAllocate 4096 4096).totalSize
        ≠ specTotalReservation 4096 4096 := by decide

/-- C4 amended: the interior slice starts one page past the reservation
base and has exactly the requested length; the total reservation size
equals the requested size rounded up to a page boundary plus two guard
pages whenever the request is not already page-aligned, and that amount
plus one extra page when it is (the padding term `p - n % p` is then a
whole page instead of zero). -/
theorem c4_amended_reservation_geometry (p n : Nat) (hp : 0 < p) :
    (pageAlignedAllocate p n).interiorOffset = p
    ∧ (pageAlignedAllocate p n).interiorLen = n
    ∧ (pageAlignedAllocate p n).totalSize
        = (if n % p = 0 then specTotalReservation p n + p
           else specTotalReservation p n) := by
  refine ⟨rfl, rfl, ?_⟩
  show n + (p - n % p) + 2 * p
      = if n % p = 0 then specTotalReservation p n + p
        else specTotalReservation p n
  unfold specTotalReservation
  rw [roundUpToPageBoundary_eq p n hp]
  by_cases h0 : n % p = 0
  · rw [if_pos h0, if_pos h0, h0]
    omega
  · rw [if_neg h0, if_neg h0]

/-- Witness for the amended C4 with page size 4096 and an unaligned
request of 100 bytes. -/
theorem c4_amended_witness :
    0 < 4096
    ∧ (pageAlignedAllocate 4096 100).totalSize
        = (if 100 % 4096 = 0 then specTotalReservation 4096 100 + 4096
           else specTotalReservation 4096 100) :=
  ⟨by decide, (c4_amended_reservation_geometry 4096 100 (by decide)).2.2⟩

/-- Witness for the amended C2: evaluates the accessor-exposure table at
the `Locked` lock marker. -/
theorem c2_amended_witness :
    byteArrayImplExists PermMarker.noAccess LockMarker.locked = false
    ∧ mutByteArrayImplExists PermMarker.noAccess LockMarker.locked = false :=
  ⟨c2_amended_accessor_exposure.2.2.1 LockMarker.locked,
   c2_amended_accessor_exposure.2.2.2.1 LockMarker.locked⟩
